import Mathlib

/-!
Verification development for the HealthMate rule-based triage backend.

The definitions below are a shallow embedding of the Python sources
`backend/triage_engine.py`, `backend/risk_scorer.py` and
`backend/triage_based_model.py`:

* Python `str` is modelled by Lean `String` (a list of characters);
  `str.lower`, `str.strip`, `str.split`, `"x" in s` and `" ".join`
  are modelled by the explicit character-list functions below
  (ASCII case folding, which covers every keyword in the sources).
* Python `float` arithmetic on the score values is modelled by exact
  rational arithmetic (`ℚ`); every constant in the sources is a short
  decimal literal, which `ℚ` represents exactly.
* Python `dict` (used for `medical_history`, which the code mutates via
  `dict.update`) is modelled by an insertion-ordered association list.
* `re.search(r'(\d+)', s)` is modelled by `firstNum` (first maximal digit
  run) and `re.search(r'\b(\d{1,3})\b', s)` by `extractAge` (first digit
  run of length at most 3 that is delimited by non-word characters).
-/

/-! ## String utilities -/

/-- ASCII case folding, modelling `str.lower` on the ASCII range
(every trigger phrase and keyword in the sources is ASCII). -/
def lowerChar (c : Char) : Char :=
  if 'A' ≤ c && c ≤ 'Z' then Char.ofNat (c.toNat + 32) else c

/-- Model of `s.lower()` -/
def lowerS (s : String) : String := ⟨s.data.map lowerChar⟩

/-- Model of `needle in hay` (Python substring containment). -/
def containsSub (hay needle : String) : Bool :=
  hay.data.tails.any (fun t => needle.data.isPrefixOf t)

/-- Model of `s.strip()` on character lists. -/
def stripChars (l : List Char) : List Char :=
  ((l.dropWhile Char.isWhitespace).reverse.dropWhile Char.isWhitespace).reverse

/-- Model of `s.strip()` -/
def strip (s : String) : String := ⟨stripChars s.data⟩

/-- Model of `s.split()` (split on whitespace runs, no empty pieces), as a
character-by-character scan carrying the word accumulated so far in
reverse. -/
def splitWsAux : List Char → List Char → List String
  | acc, [] => if acc.isEmpty then [] else [⟨acc.reverse⟩]
  | acc, c :: cs =>
    if c.isWhitespace then
      if acc.isEmpty then splitWsAux [] cs
      else ⟨acc.reverse⟩ :: splitWsAux [] cs
    else splitWsAux (c :: acc) cs

/-- Model of `s.split()` -/
def splitWs (s : String) : List String := splitWsAux [] s.data

/-- Model of `s.split(",")` (always returns at least one piece). -/
def splitOnComma : List Char → List (List Char)
  | [] => [[]]
  | c :: cs =>
    if c = ',' then [] :: splitOnComma cs
    else
      match splitOnComma cs with
      | [] => [[c]]
      | r :: rs => (c :: r) :: rs

/-- Model of `sep.join(l)` -/
def joinSep (sep : String) : List String → String
  | [] => ""
  | x :: xs => xs.foldl (fun acc y => acc ++ sep ++ y) x

/-- Numeric value of a digit run. -/
def natOfDigits (l : List Char) : Nat :=
  l.foldl (fun a c => 10 * a + (c.toNat - 48)) 0

/-- Model of `re.search(r'(\d+)', s)`: the first maximal digit run, as a number. -/
def firstNum : List Char → Option Nat
  | [] => none
  | c :: cs =>
    if c.isDigit then some (natOfDigits (c :: cs.takeWhile Char.isDigit))
    else firstNum cs

/-- Python `\w` (ASCII range). -/
def isWordChar (c : Char) : Bool := c.isAlphanum || c = '_'

/-- Model of `re.search(r'\b(\d{1,3})\b', s)`: the first maximal digit run of length
at most 3 whose ends are word boundaries; `prev` is the character just
before the current position (`none` at the start of the string).  The
scan advances one character at a time; positions inside a rejected digit
run cannot start a match anyway, because their predecessor is a digit
and hence a word character, exactly as for the regex. -/
def extractAge : Option Char → List Char → Option Nat
  | _, [] => none
  | prev, c :: cs =>
    if c.isDigit && (match prev with | none => true | some p => !isWordChar p) then
      let run := c :: cs.takeWhile Char.isDigit
      if run.length ≤ 3 &&
          (match cs.dropWhile Char.isDigit with
           | [] => true
           | d :: _ => !isWordChar d) then
        some (natOfDigits run)
      else extractAge (some c) cs
    else extractAge (some c) cs

/-! ## `triage_engine.py`: the patient profile -/

/-- Model of `PatientProfile` (dataclass in `triage_engine.py`).  `medical_history`
is a Python dict, modelled as an insertion-ordered association list. -/
structure PatientProfile where
  age : Option Nat
  gender : Option String
  primarySymptom : Option String
  duration : Option String
  severityScore : ℚ
  medicalHistory : List (String × Bool)
  currentMedications : List String
  recentMeals : Option String
  allergies : List String
  additionalSymptoms : List String
deriving DecidableEq, Repr

/-- The six-key history installed by `PatientProfile.__post_init__`. -/
def defaultHistory : List (String × Bool) :=
  [("diabetes", false), ("hypertension", false), ("asthma", false),
   ("heart_disease", false), ("stroke_history", false), ("kidney_disease", false)]

/-- A freshly constructed `PatientProfile()` after `__post_init__`. -/
def initProfile : PatientProfile :=
  { age := none, gender := none, primarySymptom := none, duration := none,
    severityScore := 0, medicalHistory := defaultHistory,
    currentMedications := [], recentMeals := none, allergies := [],
    additionalSymptoms := [] }

/-- Model of `d[k] = v` on a dict: replace in place if the key is present,
append otherwise (Python dict assignment semantics). -/
def dictSet : List (String × Bool) → String → Bool → List (String × Bool)
  | [], k, v => [(k, v)]
  | (k', v') :: rest, k, v =>
    if k' = k then (k', v) :: rest else (k', v') :: dictSet rest k v

/-- Model of `d.update(new)`: assign every pair of `new` in order. -/
def dictUpdate (d new : List (String × Bool)) : List (String × Bool) :=
  new.foldl (fun acc kv => dictSet acc kv.1 kv.2) d

/-! ## `triage_engine.py`: the conversation engine -/

/-- Model of `TriageEngine.EMERGENCY_TRIGGERS`: category name with trigger phrases. -/
def EMERGENCY_TRIGGERS : List (String × List String) :=
  [("chest_pain",
    ["chest pain", "chest tightness", "chest pressure",
     "radiating pain", "shoulder pain with chest"]),
   ("breathing",
    ["difficulty breathing", "shortness of breath", "gasping",
     "severe breathing", "choking"]),
   ("consciousness",
    ["unconscious", "fainted", "collapsed", "passed out",
     "unresponsive", "dizzy with vision loss"]),
   ("seizure",
    ["seizure", "convulsion", "shaking", "losing consciousness and shaking"]),
   ("bleeding",
    ["heavy bleeding", "severe bleeding", "uncontrolled bleeding",
     "bleeding from", "gushing blood"]),
   ("stroke",
    ["facial drooping", "arm weakness", "speech difficulty",
     "sudden numbness", "loss of balance"]),
   ("severe_trauma",
    ["severe burn", "deep cut", "impalement", "severe crush",
     "loss of consciousness from injury"])]

/-- Model of `TriageEngine._check_emergency_triggers`. -/
def checkEmergencyTriggers (text : String) : Bool :=
  EMERGENCY_TRIGGERS.any (fun ct => ct.2.any (fun trig => containsSub (lowerS text) trig))

/-- One entry of `TriageEngine.CONVERSATION_FLOW`. -/
structure FlowStage where
  stage : String
  assistantMessage : String
  requiredInfo : List String
deriving DecidableEq, Repr

/-- Model of `TriageEngine.CONVERSATION_FLOW` (verbatim stage list). -/
def CONVERSATION_FLOW : List FlowStage :=
  [⟨"greeting",
    "Hello. I\x27m HealthMate, your emergency first-aid assistant. I\x27m here to help you assess your condition. Please know that I\x27m not a replacement for a doctor. Let me ask you a few quick questions to understand what\x27s happening.",
    []⟩,
   ⟨"basic_info", "First, could you please tell me your age and gender?",
    ["age", "gender"]⟩,
   ⟨"primary_symptom", "What\x27s your main concern or symptom right now?",
    ["primary_symptom"]⟩,
   ⟨"symptom_duration", "How long have you been experiencing this symptom?",
    ["duration"]⟩,
   ⟨"severity_assessment",
    "On a scale of 1 to 10, how severe would you rate your pain or discomfort? 1 being very mild, 10 being the worst possible.",
    ["severity_score"]⟩,
   ⟨"medical_history",
    "Do you have any chronic conditions? For example: diabetes, high blood pressure, asthma, or heart disease?",
    ["medical_history"]⟩,
   ⟨"medications",
    "Are you currently taking any medications? If yes, please list them.",
    ["current_medications"]⟩,
   ⟨"allergies", "Do you have any known allergies to medications?",
    ["allergies"]⟩,
   ⟨"additional_symptoms",
    "Besides your main symptom, are you experiencing any other symptoms? Such as fever, nausea, dizziness, etc.?",
    ["additional_symptoms"]⟩]

/-- The condition-flag dict built in `_extract_information` for the
`medical_history` field (`text` is the lowered, stripped input). -/
def conditionsOf (text : String) : List (String × Bool) :=
  [("diabetes", containsSub text "diabetes"),
   ("hypertension", containsSub text "high blood pressure" ||
      containsSub text "hypertension" || containsSub text "bp"),
   ("asthma", containsSub text "asthma"),
   ("heart_disease", containsSub text "heart" || containsSub text "cardiac"),
   ("stroke_history", containsSub text "stroke" || containsSub text "tia"),
   ("kidney_disease", containsSub text "kidney")]

/-- One `field` case of `TriageEngine._extract_information` (the Python
`if field == ... / elif ...` chain compares against distinct string
literals, so it is a case distinction on `field`). -/
def extractField (p : PatientProfile) (userInput : String) (field : String) :
    PatientProfile :=
  let text := strip (lowerS userInput)
  match field with
  | "age" =>
    (match extractAge none userInput.data with
     | some n => { p with age := some n }
     | none => p)
  | "gender" =>
    if containsSub text "male" || containsSub text "man" ||
        containsSub text "boy" || (splitWs text).contains "m" then
      { p with gender := some "Male" }
    else if containsSub text "female" || containsSub text "woman" ||
        containsSub text "girl" || (splitWs text).contains "f" then
      { p with gender := some "Female" }
    else
      { p with gender := some "Not specified" }
  | "primary_symptom" => { p with primarySymptom := some userInput }
  | "duration" => { p with duration := some userInput }
  | "severity_score" =>
    (match firstNum userInput.data with
     | some n => { p with severityScore := ((min 10 (max 0 n) : Nat) : ℚ) }
     | none => p)
  | "medical_history" =>
    { p with medicalHistory := dictUpdate p.medicalHistory (conditionsOf text) }
  | "current_medications" =>
    if !containsSub text "no" && !containsSub text "none" then
      { p with currentMedications :=
          (splitOnComma userInput.data).map (fun w => strip ⟨w⟩) }
    else p
  | "allergies" =>
    if !containsSub text "no" && !containsSub text "none" then
      { p with allergies := (splitOnComma userInput.data).map (fun w => strip ⟨w⟩) }
    else p
  | "additional_symptoms" =>
    if !containsSub text "no" && !containsSub text "none" then
      { p with additionalSymptoms :=
          (splitOnComma userInput.data).map (fun w => strip ⟨w⟩) }
    else p
  | _ => p

/-- Model of `TriageEngine._extract_information`. -/
def extractInformation (p : PatientProfile) (userInput : String)
    (requiredFields : List String) : PatientProfile :=
  requiredFields.foldl (fun q f => extractField q userInput f) p

/-- The dict returned by `TriageEngine.process_user_input`. -/
structure TriageResult where
  emergencyDetected : Bool
  message : String
  shouldContinue : Bool
deriving DecidableEq, Repr

/-- The mutable state of a `TriageEngine` instance. -/
structure EngineState where
  patientProfile : PatientProfile
  currentStage : Nat
  conversationHistory : List (String × String)
  emergencyDetected : Bool
  triageComplete : Bool
deriving DecidableEq, Repr

/-- Model of `TriageEngine.__init__`. -/
def initEngine : EngineState :=
  { patientProfile := initProfile, currentStage := 0,
    conversationHistory := [], emergencyDetected := false,
    triageComplete := false }

/-- Model of `TriageEngine.reset`. -/
def resetEngine (_s : EngineState) : EngineState := initEngine

/-- Model of `TriageEngine.process_user_input`, as a function from the engine state
and the user input to the new state and the returned dict.  (When
`current_stage - 1` is in range the Python indexing always succeeds;
the `Option` lookup models the same access.) -/
def processUserInput (s : EngineState) (userInput : String) :
    EngineState × TriageResult :=
  let s1 := { s with conversationHistory :=
      s.conversationHistory ++ [("user", userInput)] }
  if checkEmergencyTriggers userInput then
    ({ s1 with emergencyDetected := true },
     ⟨true, "EMERGENCY DETECTED - Please call 911 immediately!", false⟩)
  else
    let s2 :=
      if s1.currentStage > 0 then
        match CONVERSATION_FLOW.get? (s1.currentStage - 1) with
        | some flow =>
          { s1 with patientProfile :=
              extractInformation s1.patientProfile userInput flow.requiredInfo }
        | none => s1
      else s1
    if s2.currentStage < CONVERSATION_FLOW.length then
      let nextQ := (CONVERSATION_FLOW.getD s2.currentStage ⟨"", "", []⟩).assistantMessage
      ({ s2 with currentStage := s2.currentStage + 1,
                 conversationHistory := s2.conversationHistory ++ [("assistant", nextQ)] },
       ⟨false, nextQ, true⟩)
    else
      ({ s2 with triageComplete := true },
       ⟨false, "Thank you for providing all information. Let me analyze your condition now...", false⟩)

/-- States reachable from a fresh engine by `process_user_input` and
`reset` calls. -/
inductive Reachable : EngineState → Prop
  | init : Reachable initEngine
  | step (s : EngineState) (input : String) :
      Reachable s → Reachable (processUserInput s input).1
  | reset (s : EngineState) : Reachable s → Reachable (resetEngine s)

/-! ## `risk_scorer.py`: risk scoring -/

/-- Urgency tier.  Models both `risk_scorer.UrgencyLevel` (GREEN, YELLOW,
RED) and the "green" / "yellow" / "red" strings of
`triage_based_model.py`. -/
inductive Urg
  | green
  | yellow
  | red
deriving DecidableEq, Repr

/-- Severity rank of an urgency tier (GREEN < YELLOW < RED). -/
def urgRank : Urg → Nat
  | .green => 0
  | .yellow => 1
  | .red => 2

/-- The more severe of two urgency tiers. -/
def urgMax (u v : Urg) : Urg := if urgRank u ≤ urgRank v then v else u

/-- Model of `RiskScorer.HIGH_URGENCY_SYMPTOMS` (a Python set; iteration order is
irrelevant because every match sets the same multiplier). -/
def HIGH_URGENCY_SYMPTOMS : List String :=
  ["chest_pain", "difficulty_breathing", "unconscious", "seizure",
   "heavy_bleeding", "stroke_symptoms", "severe_trauma", "poisoning",
   "anaphylaxis", "severe_allergic_reaction", "choking", "cardiac_symptoms"]

/-- Model of `RiskScorer.MODERATE_URGENCY_SYMPTOMS`. -/
def MODERATE_URGENCY_SYMPTOMS : List String :=
  ["high_fever", "severe_vomiting", "severe_diarrhea", "severe_dehydration",
   "severe_abdominal_pain", "severe_head_pain", "severe_injury",
   "uncontrolled_bleeding", "severe_breathing_difficulty"]

/-- Model of `RiskScorer.CHRONIC_CONDITIONS_RISK`. -/
def CHRONIC_CONDITIONS_RISK : List (String × ℚ) :=
  [("diabetes", 0.15), ("hypertension", 0.12), ("heart_disease", 0.25),
   ("stroke_history", 0.20), ("asthma", 0.10), ("kidney_disease", 0.18)]

/-- Model of `symptom.replace("_", " ")`. -/
def replaceUS (s : String) : String :=
  ⟨s.data.map (fun c => if c = '_' then ' ' else c)⟩

/-- The `symptoms_text` built inside `_calculate_symptom_severity`
(primary symptom and joined additional symptoms, lowercased). -/
def symptomsText (p : PatientProfile) : String :=
  lowerS (lowerS (p.primarySymptom.getD "") ++ " " ++
    lowerS (joinSep " " p.additionalSymptoms))

/-- The symptom-type multiplier of `_calculate_symptom_severity`:
1.5 on a high-urgency phrase, else 1.2 on a moderate-urgency phrase,
else 1.0. -/
def symptomMultiplier (p : PatientProfile) : ℚ :=
  if HIGH_URGENCY_SYMPTOMS.any
      (fun s => containsSub (symptomsText p) (replaceUS s)) then 1.5
  else if MODERATE_URGENCY_SYMPTOMS.any
      (fun s => containsSub (symptomsText p) (replaceUS s)) then 1.2
  else 1

/-- Model of `RiskScorer._calculate_symptom_severity`. -/
def symptomSeverity (p : PatientProfile) : ℚ :=
  min 1 (p.severityScore / 10 * symptomMultiplier p)

/-- Model of `RiskScorer._calculate_chronic_disease_score`. -/
def chronicDiseaseScore (p : PatientProfile) : ℚ :=
  if p.medicalHistory.isEmpty then 0
  else
    min 1 (p.medicalHistory.foldl
      (fun acc kv =>
        if kv.2 then
          match List.lookup kv.1 CHRONIC_CONDITIONS_RISK with
          | some w => acc + w
          | none => acc
        else acc) 0)

/-- Model of `RiskScorer._calculate_symptom_count_score`. -/
def symptomCountScore (p : PatientProfile) : ℚ :=
  let n := p.additionalSymptoms.length
  if n = 0 then 0
  else if n = 1 then 0.1
  else if n ≤ 3 then 0.3
  else min 1 (0.7 + ((n : ℚ) - 3) * 0.1)

/-- Model of `RiskScorer._calculate_duration_score`. -/
def durationScore (p : PatientProfile) : ℚ :=
  let t := lowerS (p.duration.getD "")
  if containsSub t "minutes" ||
      (containsSub t "hour" && !containsSub t "hours") then 0.1
  else if containsSub t "hours" then 0.2
  else if containsSub t "day" then
    match firstNum t.data with
    | some days => if days ≤ 3 then 0.3 else if days ≤ 7 then 0.5 else 0.7
    | none => 0.4
  else if containsSub t "week" then 0.8
  else if containsSub t "month" || containsSub t "months" then 0.9
  else 0.2

/-- The weighted, clamped overall score of `RiskScorer.calculate_risk`
(weights `RiskScorer.WEIGHTS`). -/
def overallScoreOf (p : PatientProfile) : ℚ :=
  min 1 (max 0
    (0.4 * symptomSeverity p + 0.3 * chronicDiseaseScore p +
     0.15 * symptomCountScore p + 0.15 * durationScore p))

/-- The urgency mapping of `calculate_risk` with the literal
`SEVERITY_THRESHOLDS` (`high_risk = 1.0`, `moderate_risk = 0.66`). -/
def urgencyOfScore (x : ℚ) : Urg :=
  if x ≥ 1 then .red else if x ≥ 0.66 then .yellow else .green

/-- Model of `RiskScorer._generate_recommendations` (fixed list per urgency). -/
def recommendationsFor (u : Urg) : List String :=
  match u with
  | .red =>
    ["🚨 EMERGENCY - CALL 911 IMMEDIATELY",
     "Do not drive to the hospital - call an ambulance",
     "Have insurance information and medication list ready",
     "If possible, have someone stay with you",
     "Keep this assessment record for paramedics"]
  | .yellow =>
    ["🟡 Moderate Urgency - Visit doctor or urgent care soon",
     "Schedule appointment or visit walk-in clinic today/tomorrow",
     "Monitor your condition closely for any worsening",
     "Keep hydrated and rest",
     "Avoid driving if dizzy or impaired",
     "Have your medical history and medications available"]
  | .green =>
    ["🟢 Mild - Home care may be sufficient",
     "Rest, hydration, and over-the-counter care if needed",
     "Monitor symptoms - seek care if worsening",
     "Contact primary care doctor if symptoms persist >48 hours",
     "Avoid self-medication without consulting pharmacist",
     "Stay home if fever/infectious symptoms to prevent spread"]

/-- Model of `RiskScore` (the prose `reasoning` string is omitted: it is generated
text that no claim refers to). -/
structure RiskScore where
  overallScore : ℚ
  symptomSeverityScore : ℚ
  chronicDiseaseScore : ℚ
  symptomCountScore : ℚ
  durationScore : ℚ
  urgencyLevel : Urg
  recommendations : List String
deriving DecidableEq, Repr

/-- Model of `RiskScorer.calculate_risk`. -/
def calculateRisk (p : PatientProfile) : RiskScore :=
  let overall := overallScoreOf p
  let urgency := urgencyOfScore overall
  { overallScore := overall,
    symptomSeverityScore := symptomSeverity p,
    chronicDiseaseScore := chronicDiseaseScore p,
    symptomCountScore := symptomCountScore p,
    durationScore := durationScore p,
    urgencyLevel := urgency,
    recommendations := recommendationsFor urgency }

/-! ## `triage_based_model.py`: pattern assessment -/

/-- One entry of `TriageBasedAssessment.ASSESSMENT_PATTERNS`. -/
structure Pattern where
  name : String
  keywords : List String
  urgency : Urg
  description : String
  actions : String
  redFlags : List String
  whenToSeekHelp : String
deriving DecidableEq, Repr

/-- Model of `TriageBasedAssessment.ASSESSMENT_PATTERNS` (dict in catalog
insertion order). -/
def ASSESSMENT_PATTERNS : List Pattern :=
  [⟨"migraine",
    ["throbbing", "one-sided", "nausea", "sensitivity", "visual"],
    .yellow, "Likely migraine headache",
    "See neurologist if frequent. OTC pain relief okay for now.",
    ["sudden worst ever", "fever + stiff neck", "focal neurological signs"],
    "If worst headache of your life, or with fever/neck stiffness, go to ER"⟩,
   ⟨"tension_headache",
    ["pressure", "both sides", "stress", "neck tension", "dull"],
    .green, "Likely tension-type headache",
    "Rest, relax neck muscles, hydration, OTC pain relief",
    ["worsening pattern", "new onset", "with other neurological symptoms"],
    "If persists >2 weeks or new pattern, see doctor"⟩,
   ⟨"heart_attack",
    ["crushing", "center", "radiation", "shortness", "sweating"],
    .red, "POSSIBLE ACUTE CORONARY SYNDROME",
    "CALL 911 IMMEDIATELY - DO NOT DRIVE",
    ["All of the above symptoms"],
    "EMERGENCY - Call 911 immediately"⟩,
   ⟨"anxiety",
    ["sharp", "localized", "stress", "panic", "breathing"],
    .yellow, "Possibly anxiety-related",
    "Breathing exercises, stress management, relaxation",
    ["with actual cardiac symptoms", "persistent despite treatment"],
    "See doctor to rule out cardiac causes, then mental health support"⟩,
   ⟨"gastroenteritis",
    ["abdominal", "vomiting", "diarrhea", "cramps", "nausea"],
    .yellow, "Likely viral or bacterial gastroenteritis",
    "Rest, fluids, bland diet, avoid dairy/fatty foods",
    ["severe pain", "blood in stool", "signs of dehydration", "fever >102"],
    "If severe dehydration, persistent >3 days, or blood in stool"⟩,
   ⟨"respiratory_infection",
    ["cough", "sore throat", "fever", "congestion", "shortness"],
    .yellow, "Likely respiratory infection (URI/bronchitis)",
    "Rest, hydration, cough drops, pain relief for aches",
    ["high fever", "difficulty breathing", "altered consciousness"],
    "If breathing difficulty, high fever, or symptoms >10 days"⟩,
   ⟨"sepsis",
    ["high fever", "confusion", "rapid heart rate", "difficulty breathing", "shock"],
    .red, "POSSIBLE SEPSIS - LIFE-THREATENING",
    "CALL 911 IMMEDIATELY",
    ["Any 2+ of the above"],
    "EMERGENCY - Call 911"⟩]

/-- Number of pattern keywords present in the combined answer text. -/
def matchCount (txt : String) (p : Pattern) : Nat :=
  p.keywords.countP (fun kw => containsSub txt kw)

/-- The per-pattern confidence of `assess_pattern`:
matches / number of keywords (0 on an empty keyword list). -/
def confOf (txt : String) (p : Pattern) : ℚ :=
  if p.keywords.length > 0 then
    (matchCount txt p : ℚ) / (p.keywords.length : ℚ)
  else 0

/-- The integer percentage stored in the `"confidence"` string
(`int(confidence * 100)`; the confidence is nonnegative, so Python
truncation towards zero is the floor). -/
def pctOf (txt : String) (p : Pattern) : ℤ := Rat.floor (confOf txt p * 100)

/-- One entry of `condition_scores` / `possible_conditions`.  (The
Python `possible_conditions` dicts do not repeat the urgency tier; it
is carried here because the urgency fold of the source reads it from
the parallel `condition_scores` entry.) -/
structure ScoreEntry where
  condition : String
  pct : ℤ
  description : String
  actions : String
  urgency : Urg
deriving DecidableEq, Repr

/-- The `condition_scores` entry built for a catalog pattern. -/
def mkEntry (txt : String) (p : Pattern) : ScoreEntry :=
  ⟨p.name, pctOf txt p, p.description, p.actions, p.urgency⟩

/-- Patterns passing the `confidence > 0.4` cutoff, in catalog order
(the insertion order of the `condition_scores` dict). -/
def includedPatterns (txt : String) : List Pattern :=
  ASSESSMENT_PATTERNS.filter (fun p => confOf txt p > 0.4)

/-- Model of `condition_scores.items()` in insertion order. -/
def scoresList (txt : String) : List ScoreEntry :=
  (includedPatterns txt).map (mkEntry txt)

/-- Stable insertion (descending keys): a new element goes after every
element whose key is at least as large. -/
def insDesc {α : Type} (key : α → ℤ) (x : α) : List α → List α
  | [] => [x]
  | y :: ys => if key x ≤ key y then y :: insDesc key x ys else x :: y :: ys

/-- Stable descending sort, modelling
`sorted(..., key=percent, reverse=True)` (Python sorts are stable). -/
def sortDesc {α : Type} (key : α → ℤ) (l : List α) : List α :=
  l.foldl (fun acc x => insDesc key x acc) []

/-- The ranked `possible_conditions` list of `assess_pattern`. -/
def rankedScores (txt : String) : List ScoreEntry :=
  sortDesc ScoreEntry.pct (scoresList txt)

/-- The urgency update performed for each ranked condition:
red wins outright; yellow upgrades green. -/
def urgStep (u : Urg) (e : ScoreEntry) : Urg :=
  if e.urgency = Urg.red then Urg.red
  else if e.urgency = Urg.yellow ∧ u = Urg.green then Urg.yellow
  else u

/-- Aggregate urgency after the ranked-conditions loop. -/
def condUrgency (txt : String) : Urg :=
  (rankedScores txt).foldl urgStep Urg.green

/-- The red-flag pass of `assess_pattern`: a matched red flag forces
red only when its pattern has red urgency. -/
def redFlagStep (txt : String) (u : Urg) (p : Pattern) : Urg :=
  p.redFlags.foldl
    (fun v f =>
      if containsSub txt f then
        (if p.urgency = Urg.red then Urg.red else v)
      else v) u

/-- Aggregate urgency after both loops of `assess_pattern`. -/
def finalUrgency (txt : String) : Urg :=
  ASSESSMENT_PATTERNS.foldl (redFlagStep txt) (condUrgency txt)

/-- The `red_flags_present` list: every catalog red flag occurring as a
substring of the combined answer text, in catalog order. -/
def redFlagsPresent (txt : String) : List String :=
  (ASSESSMENT_PATTERNS.map
    (fun p => p.redFlags.filter (fun f => containsSub txt f))).flatten

/-- The `next_steps` list selected by the aggregate urgency. -/
def nextStepsFor (u : Urg) : List String :=
  match u with
  | .red =>
    ["🚨 EMERGENCY - CALL 911 IMMEDIATELY",
     "Do not drive if symptoms present",
     "Have insurance information ready"]
  | .yellow =>
    ["🟡 Schedule doctor appointment within 24 hours",
     "Visit urgent care clinic if cannot see regular doctor",
     "Monitor symptoms for any worsening",
     "Stay home if contagious symptoms present"]
  | .green =>
    ["🟢 Home care measures appropriate",
     "Rest, hydration, basic comfort measures",
     "Monitor symptoms - see doctor if worsening or persistent",
     "Schedule regular appointment if symptoms continue >48 hours"]

/-- The assessment dict returned by `assess_pattern` (the fixed
disclaimer string is a constant and is omitted). -/
structure Assessment where
  symptom : String
  answersCount : Nat
  possibleConditions : List ScoreEntry
  urgencyLevel : Urg
  redFlagsPresent : List String
  nextSteps : List String
deriving DecidableEq, Repr

/-- Model of `TriageBasedAssessment.assess_pattern`. -/
def assessPattern (symptom : String) (answers : List String) : Assessment :=
  let txt := lowerS (joinSep " " answers)
  let urg := finalUrgency txt
  { symptom := symptom,
    answersCount := answers.length,
    possibleConditions := rankedScores txt,
    urgencyLevel := urg,
    redFlagsPresent := redFlagsPresent txt,
    nextSteps := nextStepsFor urg }

/-! ## Helper lemmas: catalog confidences as integer arithmetic -/

theorem keywords_len_catalog (p : Pattern) (hp : p ∈ ASSESSMENT_PATTERNS) :
    p.keywords.length = 5 := by
  simp only [ASSESSMENT_PATTERNS, List.mem_cons, List.not_mem_nil, or_false] at hp
  rcases hp with rfl | rfl | rfl | rfl | rfl | rfl | rfl <;> rfl

theorem confOf_catalog (txt : String) (p : Pattern) (hp : p ∈ ASSESSMENT_PATTERNS) :
    confOf txt p = (matchCount txt p : ℚ) / 5 := by
  have h := keywords_len_catalog p hp
  simp [confOf, h]

theorem confOf_gt_cutoff (txt : String) (p : Pattern) (hp : p ∈ ASSESSMENT_PATTERNS) :
    (confOf txt p > 0.4) ↔ 2 < matchCount txt p := by
  rw [confOf_catalog txt p hp, gt_iff_lt,
    lt_div_iff₀ (by norm_num : (0:ℚ) < 5)]
  norm_num

theorem ratFloor_intCast (z : ℤ) : Rat.floor ((z : ℚ)) = z := by
  show ⌊((z:ℚ))⌋ = z
  exact Int.floor_intCast z

theorem pctOf_catalog (txt : String) (p : Pattern) (hp : p ∈ ASSESSMENT_PATTERNS) :
    pctOf txt p = 20 * (matchCount txt p : ℤ) := by
  unfold pctOf
  rw [confOf_catalog txt p hp]
  have h : (matchCount txt p : ℚ) / 5 * 100 = ((20 * (matchCount txt p : ℤ) : ℤ) : ℚ) := by
    push_cast; ring
  rw [h, ratFloor_intCast]

/-- Model of `condition_scores`, rewritten with integer-only arithmetic (the
confidence cutoff becomes "strictly more than 2 of the 5 keywords" and
the stored percentage becomes `20 * matches`). -/
theorem scoresList_eq (txt : String) :
    scoresList txt =
      (ASSESSMENT_PATTERNS.filter (fun p => decide (2 < matchCount txt p))).map
        (fun p => ⟨p.name, 20 * (matchCount txt p : ℤ), p.description,
                    p.actions, p.urgency⟩) := by
  unfold scoresList includedPatterns
  rw [List.filter_congr (fun p hp => ?_)]
  · exact List.map_congr_left (fun p hp => by
      unfold mkEntry
      rw [pctOf_catalog txt p (List.mem_of_mem_filter hp)])
  · rw [decide_eq_decide]
    exact confOf_gt_cutoff txt p hp

/-! ## Helper lemmas: the stable descending sort -/

theorem insDesc_perm {α : Type} (key : α → ℤ) (x : α) (l : List α) :
    (insDesc key x l).Perm (x :: l) := by
  induction l with
  | nil => rfl
  | cons y ys ih =>
    unfold insDesc
    by_cases h : key x ≤ key y
    · rw [if_pos h]
      exact (ih.cons y).trans (List.Perm.swap x y ys)
    · rw [if_neg h]

theorem foldl_ins_perm {α : Type} (key : α → ℤ) (l acc : List α) :
    (l.foldl (fun a x => insDesc key x a) acc).Perm (acc ++ l) := by
  induction l generalizing acc with
  | nil => simp
  | cons x xs ih =>
    simp only [List.foldl_cons]
    refine (ih (insDesc key x acc)).trans ?_
    refine (((insDesc_perm key x acc)).append_right xs).trans ?_
    exact List.perm_middle.symm

theorem sortDesc_perm {α : Type} (key : α → ℤ) (l : List α) :
    (sortDesc key l).Perm l := by
  simpa using foldl_ins_perm key l []

/-- The order produced by the stable descending sort: keys strictly
descend, and on equal keys the original index (here: the catalog
position) strictly ascends. -/
def rankedBelow {α : Type} (key : α → ℤ) (idx : α → ℕ) (a b : α) : Prop :=
  key b < key a ∨ (key a = key b ∧ idx a < idx b)

theorem insDesc_pairwise {α : Type} (key : α → ℤ) (idx : α → ℕ)
    {x : α} {l : List α} (hl : l.Pairwise (rankedBelow key idx))
    (hx : ∀ y ∈ l, idx y < idx x) :
    (insDesc key x l).Pairwise (rankedBelow key idx) := by
  induction l with
  | nil => simp [insDesc]
  | cons y ys ih =>
    unfold insDesc
    by_cases h : key x ≤ key y
    · rw [if_pos h]
      refine List.Pairwise.cons (fun z hz => ?_) ?_
      · rcases List.mem_cons.mp ((insDesc_perm key x ys).mem_iff.mp hz) with rfl | hz'
        · rcases lt_or_eq_of_le h with hlt | heq
          · exact Or.inl hlt
          · exact Or.inr ⟨heq.symm, hx y (List.mem_cons_self y ys)⟩
        · exact List.rel_of_pairwise_cons hl hz'
      · exact ih hl.of_cons (fun z hz => hx z (List.mem_cons_of_mem _ hz))
    · rw [if_neg h]
      refine List.Pairwise.cons (fun z hz => ?_) hl
      rcases List.mem_cons.mp hz with rfl | hzys
      · exact Or.inl (lt_of_not_le h)
      · rcases List.rel_of_pairwise_cons hl hzys with h2 | h2
        · exact Or.inl (h2.trans (lt_of_not_le h))
        · exact Or.inl (h2.1 ▸ lt_of_not_le h)

theorem foldl_ins_pairwise {α : Type} (key : α → ℤ) (idx : α → ℕ) :
    ∀ (l acc : List α), acc.Pairwise (rankedBelow key idx) →
      (∀ a ∈ acc, ∀ b ∈ l, idx a < idx b) →
      l.Pairwise (fun a b => idx a < idx b) →
      (l.foldl (fun a x => insDesc key x a) acc).Pairwise (rankedBelow key idx) := by
  intro l
  induction l with
  | nil => intro acc h _ _; simpa using h
  | cons x xs ih =>
    intro acc hacc hcross hl
    simp only [List.foldl_cons]
    refine ih _ (insDesc_pairwise key idx hacc
      (fun y hy => hcross y hy x (List.mem_cons_self x xs))) ?_ hl.of_cons
    intro a ha b hb
    rcases List.mem_cons.mp ((insDesc_perm key x acc).mem_iff.mp ha) with rfl | ha'
    · exact List.rel_of_pairwise_cons hl hb
    · exact hcross a ha' b (List.mem_cons_of_mem _ hb)

theorem sortDesc_pairwise {α : Type} (key : α → ℤ) (idx : α → ℕ)
    (l : List α) (hl : l.Pairwise (fun a b => idx a < idx b)) :
    (sortDesc key l).Pairwise (rankedBelow key idx) :=
  foldl_ins_pairwise key idx l [] (by simp) (by simp) hl

/-! ## Helper lemmas: aggregate urgency as a maximum -/

theorem urgStep_eq_urgMax (u : Urg) (e : ScoreEntry) :
    urgStep u e = urgMax u e.urgency := by
  cases u <;> cases h : e.urgency <;> simp [urgStep, urgMax, urgRank, h]

theorem foldl_urgStep_perm {l l' : List ScoreEntry} (h : l.Perm l') :
    ∀ u : Urg, l.foldl urgStep u = l'.foldl urgStep u := by
  induction h with
  | nil => intro u; rfl
  | cons x _ ih => intro u; simp only [List.foldl_cons]; exact ih _
  | swap x y l =>
    intro u
    simp only [List.foldl_cons]
    have hxy : urgStep (urgStep u y) x = urgStep (urgStep u x) y := by
      cases u <;> cases hx : x.urgency <;> cases hy : y.urgency <;>
        simp [urgStep, hx, hy]
    rw [hxy]
  | trans _ _ ih1 ih2 => intro u; rw [ih1, ih2]

theorem condUrgency_eq (txt : String) :
    condUrgency txt = (scoresList txt).foldl urgStep Urg.green :=
  foldl_urgStep_perm (sortDesc_perm ScoreEntry.pct (scoresList txt)) Urg.green

theorem flagFold_eq (txt : String) :
    ∀ (l : List String) (u : Urg) (p : Pattern),
      l.foldl (fun v f => if containsSub txt f then
          (if p.urgency = Urg.red then Urg.red else v) else v) u =
        if p.urgency = Urg.red ∧ l.any (fun f => containsSub txt f) then Urg.red
        else u := by
  intro l
  induction l with
  | nil => intro u p; simp
  | cons f fs ih =>
    intro u p
    simp only [List.foldl_cons, List.any_cons]
    rw [ih]
    by_cases hf : containsSub txt f = true
    · by_cases hr : p.urgency = Urg.red
      · simp [hf, hr]
      · simp [hf, hr]
    · simp only [Bool.not_eq_true] at hf
      simp [hf]

theorem patsFold_eq (txt : String) :
    ∀ (pats : List Pattern) (u : Urg),
      pats.foldl (redFlagStep txt) u =
        if pats.any (fun p => p.urgency == Urg.red &&
            p.redFlags.any (fun f => containsSub txt f)) then Urg.red
        else u := by
  intro pats
  induction pats with
  | nil => intro u; simp
  | cons p ps ih =>
    intro u
    simp only [List.foldl_cons, List.any_cons]
    rw [show redFlagStep txt u p = _ from flagFold_eq txt p.redFlags u p, ih]
    by_cases hr : p.urgency = Urg.red
    · by_cases hf : p.redFlags.any (fun f => containsSub txt f) = true
      · simp [hr, hf]
      · simp only [Bool.not_eq_true] at hf
        simp [hr, hf]
    · simp [hr]

theorem finalUrgency_eq (txt : String) :
    finalUrgency txt =
      if ASSESSMENT_PATTERNS.any (fun p => p.urgency == Urg.red &&
          p.redFlags.any (fun f => containsSub txt f)) then Urg.red
      else condUrgency txt :=
  patsFold_eq txt ASSESSMENT_PATTERNS (condUrgency txt)

/-! ## Helper lemmas: the profile invariant (C9) -/

/-- The six fixed medical-history keys. -/
def SIX_KEYS : List String :=
  ["diabetes", "hypertension", "asthma", "heart_disease",
   "stroke_history", "kidney_disease"]

/-- The profile invariant of the spec: the history dict has exactly the
six fixed keys (in their fixed order) and the severity score is in
[0, 10]. -/
def ProfileInv (p : PatientProfile) : Prop :=
  p.medicalHistory.map Prod.fst = SIX_KEYS ∧
    0 ≤ p.severityScore ∧ p.severityScore ≤ 10

theorem dictSet_keys (d : List (String × Bool)) (k : String) (v : Bool)
    (h : k ∈ d.map Prod.fst) :
    (dictSet d k v).map Prod.fst = d.map Prod.fst := by
  induction d with
  | nil => simp at h
  | cons kv rest ih =>
    obtain ⟨k', v'⟩ := kv
    by_cases hk : k' = k
    · simp [dictSet, hk]
    · have h' : k ∈ rest.map Prod.fst := by
        simp only [List.map_cons, List.mem_cons] at h
        rcases h with h1 | h1
        · exact absurd h1.symm hk
        · exact h1
      simp [dictSet, hk, ih h']

theorem dictUpdate_keys (d new : List (String × Bool))
    (h : ∀ kv ∈ new, kv.1 ∈ d.map Prod.fst) :
    (dictUpdate d new).map Prod.fst = d.map Prod.fst := by
  induction new generalizing d with
  | nil => rfl
  | cons kv rest ih =>
    have hset := dictSet_keys d kv.1 kv.2 (h kv (List.mem_cons_self kv rest))
    calc (dictUpdate d (kv :: rest)).map Prod.fst
        = (dictUpdate (dictSet d kv.1 kv.2) rest).map Prod.fst := rfl
      _ = (dictSet d kv.1 kv.2).map Prod.fst := by
          refine ih _ (fun kv' hkv' => ?_)
          rw [hset]
          exact h kv' (List.mem_cons_of_mem _ hkv')
      _ = d.map Prod.fst := hset

theorem extractField_inv (p : PatientProfile) (input f : String)
    (h : ProfileInv p) : ProfileInv (extractField p input f) := by
  unfold ProfileInv at h ⊢
  unfold extractField
  split
  -- "age"
  · split
    · exact h
    · exact h
  -- "gender"
  · dsimp only
    split
    · exact h
    split
    · exact h
    · exact h
  -- "primary_symptom"
  · exact h
  -- "duration"
  · exact h
  -- "severity_score"
  · split
    · rename_i n heq
      refine ⟨h.1, Nat.cast_nonneg _, ?_⟩
      show ((min 10 (max 0 n) : Nat) : ℚ) ≤ 10
      exact_mod_cast min_le_left _ _
    · exact h
  -- "medical_history"
  · refine ⟨?_, h.2.1, h.2.2⟩
    rw [dictUpdate_keys]
    · exact h.1
    · intro kv hkv
      rw [h.1]
      simp only [conditionsOf, List.mem_cons, List.not_mem_nil, or_false] at hkv
      rcases hkv with rfl | rfl | rfl | rfl | rfl | rfl <;> (dsimp only; decide)
  -- "current_medications"
  · dsimp only
    split
    · exact h
    · exact h
  -- "allergies"
  · dsimp only
    split
    · exact h
    · exact h
  -- "additional_symptoms"
  · dsimp only
    split
    · exact h
    · exact h
  -- default
  · exact h

theorem extractInformation_inv (p : PatientProfile) (input : String)
    (fields : List String) (h : ProfileInv p) :
    ProfileInv (extractInformation p input fields) := by
  induction fields generalizing p with
  | nil => exact h
  | cons f fs ih =>
    exact ih (extractField p input f) (extractField_inv p input f h)

theorem processUserInput_inv (s : EngineState) (input : String)
    (h : ProfileInv s.patientProfile) :
    ProfileInv (processUserInput s input).1.patientProfile := by
  unfold processUserInput
  by_cases hc : checkEmergencyTriggers input = true
  · simp only [hc, if_true]
    exact h
  · simp only [Bool.not_eq_true] at hc
    simp only [hc, Bool.false_eq_true, if_false]
    split
    · split
      · split
        · exact extractInformation_inv _ input _ h
        · exact h
      · split
        · exact extractInformation_inv _ input _ h
        · exact h
    · split
      · exact h
      · exact h

/-- C9 invariant, over all reachable engine states. -/
theorem reachable_inv (s : EngineState) (h : Reachable s) :
    ProfileInv s.patientProfile := by
  induction h with
  | init =>
    exact ⟨rfl, le_refl 0, by show (0:ℚ) ≤ 10; norm_num⟩
  | step s input _ ih => exact processUserInput_inv s input ih
  | reset s _ => exact ⟨rfl, le_refl 0, by show (0:ℚ) ≤ 10; norm_num⟩

/-! ## Helper lemmas: risk scorer -/

theorem lookup_chronic_nonneg (k : String) (w : ℚ)
    (h : List.lookup k CHRONIC_CONDITIONS_RISK = some w) : 0 ≤ w := by
  simp only [CHRONIC_CONDITIONS_RISK, List.lookup] at h
  repeat' split at h
  all_goals simp_all
  all_goals norm_num [← h]

theorem chronic_fold_nonneg (l : List (String × Bool)) (acc : ℚ) (hacc : 0 ≤ acc) :
    0 ≤ l.foldl
      (fun acc kv =>
        if kv.2 then
          match List.lookup kv.1 CHRONIC_CONDITIONS_RISK with
          | some w => acc + w
          | none => acc
        else acc) acc := by
  induction l generalizing acc with
  | nil => exact hacc
  | cons kv rest ih =>
    refine ih _ ?_
    by_cases hv : kv.2 = true
    · simp only [hv, if_true]
      cases hw : List.lookup kv.1 CHRONIC_CONDITIONS_RISK with
      | none => exact hacc
      | some w => exact add_nonneg hacc (lookup_chronic_nonneg kv.1 w hw)
    · simp only [Bool.not_eq_true] at hv
      simp [hv, hacc]

theorem urgencyOfScore_cases (x : ℚ) :
    (urgencyOfScore x = Urg.red ↔ 1 ≤ x) ∧
    (urgencyOfScore x = Urg.yellow ↔ 0.66 ≤ x ∧ x < 1) ∧
    (urgencyOfScore x = Urg.green ↔ x < 0.66) := by
  unfold urgencyOfScore
  split_ifs with h1 h2
  · exact ⟨iff_of_true rfl h1,
      iff_of_false (by decide) (by rintro ⟨-, hb⟩; linarith),
      iff_of_false (by decide) (by intro hb; linarith)⟩
  · exact ⟨iff_of_false (by decide) h1,
      iff_of_true rfl ⟨h2, not_le.mp h1⟩,
      iff_of_false (by decide) (not_lt.mpr h2)⟩
  · exact ⟨iff_of_false (by decide) (fun hc => h1 (by linarith)),
      iff_of_false (by decide) (by rintro ⟨ha, -⟩; exact h2 ha),
      iff_of_true rfl (not_le.mp h2)⟩

theorem urgencyOfScore_mono {x y : ℚ} (h : x ≤ y) :
    urgRank (urgencyOfScore x) ≤ urgRank (urgencyOfScore y) := by
  unfold urgencyOfScore
  split_ifs <;> simp [urgRank] <;> linarith

/-! ## Helper lemmas: conversation engine -/

theorem checkEmergencyTriggers_iff (input : String) :
    checkEmergencyTriggers input = true ↔
      ∃ ct ∈ EMERGENCY_TRIGGERS, ∃ trig ∈ ct.2,
        containsSub (lowerS input) trig = true := by
  unfold checkEmergencyTriggers
  simp [List.any_eq_true]

/-- Shape of the conversation history after one `process_user_input`
call: the `("user", input)` pair is appended first; on the emergency and
completion paths nothing else is appended, on the continue path the next
question follows. -/
theorem processUserInput_history_shape (s : EngineState) (input : String) :
    ∃ tail, (processUserInput s input).1.conversationHistory =
        (s.conversationHistory ++ [("user", input)]) ++ tail ∧
      ((processUserInput s input).2.emergencyDetected = true → tail = []) := by
  unfold processUserInput
  by_cases hc : checkEmergencyTriggers input = true
  · rw [if_pos hc]
    exact ⟨[], by simp, fun _ => rfl⟩
  · simp only [Bool.not_eq_true] at hc
    simp only [hc, Bool.false_eq_true, if_false]
    repeat' split
    all_goals first
      | exact ⟨_, rfl, fun hf => absurd hf Bool.false_ne_true⟩
      | exact ⟨[], by simp, fun _ => rfl⟩

theorem processUserInput_emergency_flag (s : EngineState) (input : String) :
    (processUserInput s input).2.emergencyDetected = checkEmergencyTriggers input := by
  unfold processUserInput
  by_cases hc : checkEmergencyTriggers input = true
  · rw [if_pos hc, hc]
  · simp only [Bool.not_eq_true] at hc
    simp only [hc, Bool.false_eq_true, if_false]
    repeat' split
    all_goals rfl

/-! ## The claims -/

/-- C1: any user input whose lowercase form contains an emergency trigger
phrase from any category makes `process_user_input` return
`emergency_detected = true` and `should_continue = false`, and leaves the
patient profile and the current stage index unchanged. -/
theorem emergency_input_short_circuits (s : EngineState) (input : String)
    (h : ∃ ct ∈ EMERGENCY_TRIGGERS, ∃ trig ∈ ct.2,
        containsSub (lowerS input) trig = true) :
    (processUserInput s input).2.emergencyDetected = true ∧
    (processUserInput s input).2.shouldContinue = false ∧
    (processUserInput s input).1.patientProfile = s.patientProfile ∧
    (processUserInput s input).1.currentStage = s.currentStage := by
  have hc : checkEmergencyTriggers input = true :=
    (checkEmergencyTriggers_iff input).mpr h
  unfold processUserInput
  rw [if_pos hc]
  exact ⟨rfl, rfl, rfl, rfl⟩

/-- C1 witness: the concrete input "I have severe chest pain" from the
initial engine state. -/
theorem emergency_input_short_circuits_witness :
    (processUserInput initEngine "I have severe chest pain").2.emergencyDetected = true ∧
    (processUserInput initEngine "I have severe chest pain").2.shouldContinue = false ∧
    (processUserInput initEngine "I have severe chest pain").1.patientProfile =
      initEngine.patientProfile ∧
    (processUserInput initEngine "I have severe chest pain").1.currentStage =
      initEngine.currentStage :=
  emergency_input_short_circuits initEngine "I have severe chest pain" (by decide)

/-- C10: every `process_user_input` call appends the `("user", input)`
pair to the conversation history right after the previous history, and on
an emergency turn the history grows by exactly this one entry. -/
theorem history_appends_user_pair (s : EngineState) (input : String) :
    (∃ rest, (processUserInput s input).1.conversationHistory =
        s.conversationHistory ++ ("user", input) :: rest) ∧
    ((processUserInput s input).2.emergencyDetected = true →
      (processUserInput s input).1.conversationHistory =
        s.conversationHistory ++ [("user", input)]) := by
  obtain ⟨tail, h1, h2⟩ := processUserInput_history_shape s input
  refine ⟨⟨tail, by rw [h1]; simp⟩, fun hem => ?_⟩
  rw [h1, h2 hem, List.append_nil]

/-- C10 witness: an emergency turn grows the history by exactly the user
pair; instantiated at the initial state with input "chest pain". -/
theorem history_appends_user_pair_witness :
    (processUserInput initEngine "chest pain").1.conversationHistory =
      initEngine.conversationHistory ++ [("user", "chest pain")] :=
  (history_appends_user_pair initEngine "chest pain").2 (by decide)

/-- C9: from a fresh engine, after any sequence of `process_user_input`
and `reset` calls, the profile history dict has exactly the six fixed
condition keys and the severity score lies in [0, 10]. -/
theorem engine_profile_invariant (s : EngineState) (h : Reachable s) :
    s.patientProfile.medicalHistory.map Prod.fst =
      ["diabetes", "hypertension", "asthma", "heart_disease",
       "stroke_history", "kidney_disease"] ∧
    0 ≤ s.patientProfile.severityScore ∧ s.patientProfile.severityScore ≤ 10 :=
  reachable_inv s h

/-- C9 witness: the state reached by answering "I have diabetes and a
stroke history" once. -/
theorem engine_profile_invariant_witness :
    (processUserInput initEngine "I have diabetes and a stroke history").1.patientProfile.medicalHistory.map
        Prod.fst =
      ["diabetes", "hypertension", "asthma", "heart_disease",
       "stroke_history", "kidney_disease"] ∧
    0 ≤ (processUserInput initEngine "I have diabetes and a stroke history").1.patientProfile.severityScore ∧
    (processUserInput initEngine "I have diabetes and a stroke history").1.patientProfile.severityScore ≤ 10 :=
  engine_profile_invariant _
    (Reachable.step initEngine "I have diabetes and a stroke history" Reachable.init)

/-- C2: `calculate_risk` maps the overall score to RED exactly on
`overall_score >= 1.0`, to YELLOW exactly on `0.66 <= overall_score < 1.0`
and to GREEN otherwise, and the mapping is monotone in the overall
score. -/
theorem urgency_thresholds_monotone :
    (∀ p : PatientProfile,
      ((calculateRisk p).urgencyLevel = Urg.red ↔
        1 ≤ (calculateRisk p).overallScore) ∧
      ((calculateRisk p).urgencyLevel = Urg.yellow ↔
        0.66 ≤ (calculateRisk p).overallScore ∧ (calculateRisk p).overallScore < 1) ∧
      ((calculateRisk p).urgencyLevel = Urg.green ↔
        (calculateRisk p).overallScore < 0.66)) ∧
    (∀ p q : PatientProfile,
      (calculateRisk p).overallScore ≤ (calculateRisk q).overallScore →
      urgRank (calculateRisk p).urgencyLevel ≤ urgRank (calculateRisk q).urgencyLevel) :=
  ⟨fun p => urgencyOfScore_cases (overallScoreOf p),
   fun _ _ h => urgencyOfScore_mono h⟩

/-- C2 witness: the GREEN characterisation at the default profile, and
monotonicity applied to a concrete pair of profiles. -/
theorem urgency_thresholds_monotone_witness :
    ((calculateRisk initProfile).urgencyLevel = Urg.green ↔
      (calculateRisk initProfile).overallScore < 0.66) ∧
    urgRank (calculateRisk initProfile).urgencyLevel ≤
      urgRank (calculateRisk initProfile).urgencyLevel :=
  ⟨(urgency_thresholds_monotone.1 initProfile).2.2,
   urgency_thresholds_monotone.2 initProfile initProfile (le_refl _)⟩

/-- C3: for a profile satisfying the severity invariant, the overall
score and every sub-score of `calculate_risk` lie in [0, 1]. -/
theorem risk_scores_bounded (p : PatientProfile)
    (h0 : 0 ≤ p.severityScore) (_h10 : p.severityScore ≤ 10) :
    (0 ≤ (calculateRisk p).symptomSeverityScore ∧
      (calculateRisk p).symptomSeverityScore ≤ 1) ∧
    (0 ≤ (calculateRisk p).chronicDiseaseScore ∧
      (calculateRisk p).chronicDiseaseScore ≤ 1) ∧
    (0 ≤ (calculateRisk p).symptomCountScore ∧
      (calculateRisk p).symptomCountScore ≤ 1) ∧
    (0 ≤ (calculateRisk p).durationScore ∧
      (calculateRisk p).durationScore ≤ 1) ∧
    (0 ≤ (calculateRisk p).overallScore ∧
      (calculateRisk p).overallScore ≤ 1) := by
  refine ⟨⟨?_, ?_⟩, ⟨?_, ?_⟩, ⟨?_, ?_⟩, ⟨?_, ?_⟩, ⟨?_, ?_⟩⟩
  · show 0 ≤ symptomSeverity p
    unfold symptomSeverity
    refine le_min (by norm_num) (mul_nonneg (div_nonneg h0 (by norm_num)) ?_)
    unfold symptomMultiplier
    repeat' split
    all_goals norm_num
  · show symptomSeverity p ≤ 1
    exact min_le_left _ _
  · show 0 ≤ chronicDiseaseScore p
    unfold chronicDiseaseScore
    split
    · norm_num
    · exact le_min (by norm_num) (chronic_fold_nonneg _ 0 le_rfl)
  · show chronicDiseaseScore p ≤ 1
    unfold chronicDiseaseScore
    split
    · norm_num
    · exact min_le_left _ _
  · show 0 ≤ symptomCountScore p
    unfold symptomCountScore
    dsimp only
    split
    · norm_num
    split
    · norm_num
    split
    · norm_num
    · refine le_min (by norm_num) ?_
      have h4 : 4 ≤ p.additionalSymptoms.length := by omega
      have h4q : (4:ℚ) ≤ (p.additionalSymptoms.length : ℚ) := by exact_mod_cast h4
      linarith
  · show symptomCountScore p ≤ 1
    unfold symptomCountScore
    dsimp only
    split
    · norm_num
    split
    · norm_num
    split
    · norm_num
    · exact min_le_left _ _
  · show 0 ≤ durationScore p
    unfold durationScore
    dsimp only
    repeat' split
    all_goals norm_num
  · show durationScore p ≤ 1
    unfold durationScore
    dsimp only
    repeat' split
    all_goals norm_num
  · show 0 ≤ overallScoreOf p
    exact le_min (by norm_num) (le_max_left 0 _)
  · show overallScoreOf p ≤ 1
    exact min_le_left _ _

/-- C3 witness: the default profile (severity 0) satisfies the bounds. -/
theorem risk_scores_bounded_witness :
    (0 ≤ (calculateRisk initProfile).symptomSeverityScore ∧
      (calculateRisk initProfile).symptomSeverityScore ≤ 1) ∧
    (0 ≤ (calculateRisk initProfile).chronicDiseaseScore ∧
      (calculateRisk initProfile).chronicDiseaseScore ≤ 1) ∧
    (0 ≤ (calculateRisk initProfile).symptomCountScore ∧
      (calculateRisk initProfile).symptomCountScore ≤ 1) ∧
    (0 ≤ (calculateRisk initProfile).durationScore ∧
      (calculateRisk initProfile).durationScore ≤ 1) ∧
    (0 ≤ (calculateRisk initProfile).overallScore ∧
      (calculateRisk initProfile).overallScore ≤ 1) :=
  risk_scores_bounded initProfile (le_refl 0) (by decide)

/-- C7: the duration sub-score follows the substring cues in the exact
priority order of the source, with the day count read from the first
integer in the text. -/
theorem duration_score_cases (p : PatientProfile) :
    ((containsSub (lowerS (p.duration.getD "")) "minutes" = true ∨
        (containsSub (lowerS (p.duration.getD "")) "hour" = true ∧
         containsSub (lowerS (p.duration.getD "")) "hours" = false)) →
      (calculateRisk p).durationScore = 0.1) ∧
    (containsSub (lowerS (p.duration.getD "")) "minutes" = false →
      containsSub (lowerS (p.duration.getD "")) "hours" = true →
      (calculateRisk p).durationScore = 0.2) ∧
    (containsSub (lowerS (p.duration.getD "")) "minutes" = false →
      containsSub (lowerS (p.duration.getD "")) "hour" = false →
      containsSub (lowerS (p.duration.getD "")) "hours" = false →
      containsSub (lowerS (p.duration.getD "")) "day" = true →
      (calculateRisk p).durationScore =
        (match firstNum (lowerS (p.duration.getD "")).data with
         | some days => if days ≤ 3 then 0.3 else if days ≤ 7 then 0.5 else 0.7
         | none => 0.4)) ∧
    (containsSub (lowerS (p.duration.getD "")) "minutes" = false →
      containsSub (lowerS (p.duration.getD "")) "hour" = false →
      containsSub (lowerS (p.duration.getD "")) "hours" = false →
      containsSub (lowerS (p.duration.getD "")) "day" = false →
      containsSub (lowerS (p.duration.getD "")) "week" = true →
      (calculateRisk p).durationScore = 0.8) ∧
    (containsSub (lowerS (p.duration.getD "")) "minutes" = false →
      containsSub (lowerS (p.duration.getD "")) "hour" = false →
      containsSub (lowerS (p.duration.getD "")) "hours" = false →
      containsSub (lowerS (p.duration.getD "")) "day" = false →
      containsSub (lowerS (p.duration.getD "")) "week" = false →
      (containsSub (lowerS (p.duration.getD "")) "month" = true ∨
        containsSub (lowerS (p.duration.getD "")) "months" = true) →
      (calculateRisk p).durationScore = 0.9) ∧
    (containsSub (lowerS (p.duration.getD "")) "minutes" = false →
      containsSub (lowerS (p.duration.getD "")) "hour" = false →
      containsSub (lowerS (p.duration.getD "")) "hours" = false →
      containsSub (lowerS (p.duration.getD "")) "day" = false →
      containsSub (lowerS (p.duration.getD "")) "week" = false →
      containsSub (lowerS (p.duration.getD "")) "month" = false →
      containsSub (lowerS (p.duration.getD "")) "months" = false →
      (calculateRisk p).durationScore = 0.2) := by
  refine ⟨?_, ?_, ?_, ?_, ?_, ?_⟩
  · intro h
    show durationScore p = 0.1
    unfold durationScore
    rcases h with hm | ⟨hh, hhs⟩
    · simp [hm]
    · simp [hh, hhs]
  · intro hm hhs
    show durationScore p = 0.2
    unfold durationScore
    simp [hm, hhs]
  · intro hm hh hhs hd
    show durationScore p = _
    unfold durationScore
    simp [hm, hh, hhs, hd]
  · intro hm hh hhs hd hw
    show durationScore p = 0.8
    unfold durationScore
    simp [hm, hh, hhs, hd, hw]
  · intro hm hh hhs hd hw hmo
    show durationScore p = 0.9
    unfold durationScore
    rcases hmo with h1 | h1 <;> simp [hm, hh, hhs, hd, hw, h1]
  · intro hm hh hhs hd hw hmo hmos
    show durationScore p = 0.2
    unfold durationScore
    simp [hm, hh, hhs, hd, hw, hmo, hmos]

/-- C7 witness: a profile whose duration text is "30 minutes" scores
0.1, and one with no duration field scores 0.2. -/
theorem duration_score_cases_witness :
    (calculateRisk { initProfile with duration := some "30 minutes" }).durationScore = 0.1 ∧
    (calculateRisk initProfile).durationScore = 0.2 :=
  ⟨(duration_score_cases { initProfile with duration := some "30 minutes" }).1
      (Or.inl (by decide)),
   (duration_score_cases initProfile).2.2.2.2.2 (by decide) (by decide)
      (by decide) (by decide) (by decide) (by decide) (by decide)⟩

/-- C8: the symptom-count sub-score is the step function of the number
of additional symptoms stated in the source, giving 0.0, 0.1, 0.3, 0.3,
0.8, 0.9 for 0 to 5 symptoms. -/
theorem symptom_count_step (p : PatientProfile) :
    (p.additionalSymptoms.length = 0 → (calculateRisk p).symptomCountScore = 0) ∧
    (p.additionalSymptoms.length = 1 → (calculateRisk p).symptomCountScore = 0.1) ∧
    ((p.additionalSymptoms.length = 2 ∨ p.additionalSymptoms.length = 3) →
      (calculateRisk p).symptomCountScore = 0.3) ∧
    (4 ≤ p.additionalSymptoms.length →
      (calculateRisk p).symptomCountScore =
        min 1 (0.7 + 0.1 * ((p.additionalSymptoms.length : ℚ) - 3))) ∧
    (p.additionalSymptoms.length = 4 → (calculateRisk p).symptomCountScore = 0.8) ∧
    (p.additionalSymptoms.length = 5 → (calculateRisk p).symptomCountScore = 0.9) := by
  refine ⟨?_, ?_, ?_, ?_, ?_, ?_⟩
  · intro h
    show symptomCountScore p = 0
    unfold symptomCountScore
    simp [h]
  · intro h
    show symptomCountScore p = 0.1
    unfold symptomCountScore
    simp [h]
  · intro h
    show symptomCountScore p = 0.3
    unfold symptomCountScore
    rcases h with h | h <;> simp [h]
  · intro h
    show symptomCountScore p = _
    unfold symptomCountScore
    dsimp only
    have h0 : ¬(p.additionalSymptoms.length = 0) := by omega
    have h1 : ¬(p.additionalSymptoms.length = 1) := by omega
    have h3 : ¬(p.additionalSymptoms.length ≤ 3) := by omega
    simp only [h0, h1, h3, if_false]
    ring_nf
  · intro h
    show symptomCountScore p = 0.8
    unfold symptomCountScore
    simp [h]
    norm_num
  · intro h
    show symptomCountScore p = 0.9
    unfold symptomCountScore
    simp [h]
    norm_num

/-- C8 witness: concrete profiles with 0 and 4 additional symptoms. -/
theorem symptom_count_step_witness :
    (calculateRisk initProfile).symptomCountScore = 0 ∧
    (calculateRisk { initProfile with
        additionalSymptoms := ["fever", "nausea", "dizziness", "chills"] }).symptomCountScore
      = 0.8 :=
  ⟨(symptom_count_step initProfile).1 (by decide),
   (symptom_count_step { initProfile with
      additionalSymptoms := ["fever", "nausea", "dizziness", "chills"] }).2.2.2.2.1
      (by decide)⟩

/-! ## C4: gender extraction -/

theorem extractField_gender (q : PatientProfile) (input : String) :
    extractField q input "gender" =
      (if (containsSub (strip (lowerS input)) "male" ||
            containsSub (strip (lowerS input)) "man" ||
            containsSub (strip (lowerS input)) "boy" ||
            (splitWs (strip (lowerS input))).contains "m") = true then
        { q with gender := some "Male" }
      else if (containsSub (strip (lowerS input)) "female" ||
            containsSub (strip (lowerS input)) "woman" ||
            containsSub (strip (lowerS input)) "girl" ||
            (splitWs (strip (lowerS input))).contains "f") = true then
        { q with gender := some "Female" }
      else { q with gender := some "Not specified" }) := rfl

/-- C4 counterexample: the input "female" contains the substring
"female", yet the extractor sets gender to "Male" (because the male
branch is checked first and "female" contains "male"). -/
theorem gender_female_counterexample :
    containsSub (strip (lowerS "female")) "female" = true ∧
    (extractInformation initProfile "female" ["age", "gender"]).gender = some "Male" ∧
    (some "Male" : Option String) ≠ some "Female" :=
  ⟨by decide, by decide, by decide⟩

/-- C4 amended: in the gender stage the extractor sets "Male" whenever
the lowered, stripped text contains male, man or boy as a substring or
has the whitespace token "m"; otherwise "Female" whenever it contains
female, woman or girl or has the token "f"; otherwise "Not specified"
(gender is always set).  Because the male cues are checked first and
"female" contains "male" (and "woman" contains "man"), a Female result
is reachable only through "girl" or the "f" token. -/
theorem gender_extraction_amended (p : PatientProfile) (input : String) :
    ((containsSub (strip (lowerS input)) "male" ||
        containsSub (strip (lowerS input)) "man" ||
        containsSub (strip (lowerS input)) "boy" ||
        (splitWs (strip (lowerS input))).contains "m") = true →
      (extractInformation p input ["age", "gender"]).gender = some "Male") ∧
    ((containsSub (strip (lowerS input)) "male" ||
        containsSub (strip (lowerS input)) "man" ||
        containsSub (strip (lowerS input)) "boy" ||
        (splitWs (strip (lowerS input))).contains "m") = false →
      (containsSub (strip (lowerS input)) "female" ||
        containsSub (strip (lowerS input)) "woman" ||
        containsSub (strip (lowerS input)) "girl" ||
        (splitWs (strip (lowerS input))).contains "f") = true →
      (extractInformation p input ["age", "gender"]).gender = some "Female") ∧
    ((containsSub (strip (lowerS input)) "male" ||
        containsSub (strip (lowerS input)) "man" ||
        containsSub (strip (lowerS input)) "boy" ||
        (splitWs (strip (lowerS input))).contains "m") = false →
      (containsSub (strip (lowerS input)) "female" ||
        containsSub (strip (lowerS input)) "woman" ||
        containsSub (strip (lowerS input)) "girl" ||
        (splitWs (strip (lowerS input))).contains "f") = false →
      (extractInformation p input ["age", "gender"]).gender = some "Not specified") := by
  have hstep : extractInformation p input ["age", "gender"] =
      extractField (extractField p input "age") input "gender" := rfl
  refine ⟨?_, ?_, ?_⟩
  · intro h1
    rw [hstep, extractField_gender, if_pos h1]
  · intro h1 h2
    rw [hstep, extractField_gender,
      if_neg (by simp only [h1]; exact Bool.false_ne_true), if_pos h2]
  · intro h1 h2
    rw [hstep, extractField_gender,
      if_neg (by simp only [h1]; exact Bool.false_ne_true),
      if_neg (by simp only [h2]; exact Bool.false_ne_true)]

/-- C4 amended witness: "I am a boy" gives Male, "girl" gives Female,
"prefer not to say" gives Not specified. -/
theorem gender_extraction_amended_witness :
    (extractInformation initProfile "I am a boy" ["age", "gender"]).gender = some "Male" ∧
    (extractInformation initProfile "girl" ["age", "gender"]).gender = some "Female" ∧
    (extractInformation initProfile "prefer not to say" ["age", "gender"]).gender =
      some "Not specified" :=
  ⟨(gender_extraction_amended initProfile "I am a boy").1 (by decide),
   (gender_extraction_amended initProfile "girl").2.1 (by decide) (by decide),
   (gender_extraction_amended initProfile "prefer not to say").2.2 (by decide) (by decide)⟩

/-! ## C5: aggregate urgency -/

/-- C5 counterexample: in `assess_pattern("headache", ["sudden worst
ever"])` the answer text contains "sudden worst ever", a red flag of the
yellow-urgency migraine pattern, and no condition passes the confidence
cutoff; the claim would force an aggregate urgency of at least yellow,
but the code leaves it green (the red-flag pass only raises urgency for
red-urgency patterns). -/
theorem red_flag_yellow_counterexample :
    (∃ pat ∈ ASSESSMENT_PATTERNS, pat.urgency = Urg.yellow ∧
      "sudden worst ever" ∈ pat.redFlags) ∧
    containsSub (lowerS (joinSep " " ["sudden worst ever"])) "sudden worst ever" = true ∧
    (assessPattern "headache" ["sudden worst ever"]).possibleConditions = [] ∧
    (assessPattern "headache" ["sudden worst ever"]).redFlagsPresent =
      ["sudden worst ever"] ∧
    (assessPattern "headache" ["sudden worst ever"]).urgencyLevel = Urg.green ∧
    Urg.green ≠ Urg.yellow := by
  refine ⟨by decide, by decide, ?_, by decide, ?_, by decide⟩
  · show sortDesc ScoreEntry.pct (scoresList (lowerS (joinSep " " ["sudden worst ever"]))) = []
    rw [scoresList_eq]
    decide
  · show finalUrgency (lowerS (joinSep " " ["sudden worst ever"])) = Urg.green
    rw [finalUrgency_eq, condUrgency_eq, scoresList_eq]
    decide

/-- C5 amended: the aggregate urgency equals the maximum urgency over
the conditions passing the confidence cutoff, further raised to RED when
some RED-urgency pattern has a red-flag phrase contained in the answer
text; red flags of non-red patterns are recorded in
`red_flags_present` but never change the urgency.  The second conjunct
characterises `red_flags_present` as all matched red flags of all
patterns. -/
theorem aggregate_urgency_amended (symptom : String) (answers : List String) :
    (assessPattern symptom answers).urgencyLevel =
      urgMax
        ((scoresList (lowerS (joinSep " " answers))).foldl
          (fun u e => urgMax u e.urgency) Urg.green)
        (if ASSESSMENT_PATTERNS.any (fun pat => pat.urgency == Urg.red &&
            pat.redFlags.any
              (fun f => containsSub (lowerS (joinSep " " answers)) f)) then
          Urg.red
        else Urg.green) ∧
    (∀ f, f ∈ (assessPattern symptom answers).redFlagsPresent ↔
      ∃ pat ∈ ASSESSMENT_PATTERNS, f ∈ pat.redFlags ∧
        containsSub (lowerS (joinSep " " answers)) f = true) := by
  constructor
  · show finalUrgency (lowerS (joinSep " " answers)) = _
    rw [finalUrgency_eq, condUrgency_eq]
    have hstep : urgStep = fun u (e : ScoreEntry) => urgMax u e.urgency := by
      funext u e
      exact urgStep_eq_urgMax u e
    rw [hstep]
    by_cases hr : ASSESSMENT_PATTERNS.any (fun pat => pat.urgency == Urg.red &&
        pat.redFlags.any
          (fun f => containsSub (lowerS (joinSep " " answers)) f)) = true
    · rw [if_pos hr, if_pos hr]
      generalize (List.foldl (fun u (e : ScoreEntry) => urgMax u e.urgency) Urg.green
        (scoresList (lowerS (joinSep " " answers)))) = M
      cases M <;> rfl
    · rw [if_neg hr, if_neg hr]
      generalize (List.foldl (fun u (e : ScoreEntry) => urgMax u e.urgency) Urg.green
        (scoresList (lowerS (joinSep " " answers)))) = M
      cases M <;> rfl
  · intro f
    show f ∈ redFlagsPresent (lowerS (joinSep " " answers)) ↔ _
    unfold redFlagsPresent
    simp only [List.mem_flatten, List.mem_map]
    constructor
    · rintro ⟨l, ⟨pat, hpat, rfl⟩, hmem⟩
      obtain ⟨hf, hsub⟩ := List.mem_filter.mp hmem
      exact ⟨pat, hpat, hf, hsub⟩
    · rintro ⟨pat, hpat, hf, hsub⟩
      exact ⟨_, ⟨pat, hpat, rfl⟩, List.mem_filter.mpr ⟨hf, hsub⟩⟩

/-! ## C6: confidence computation and ranking -/

/-- C6: each pattern scores `confidence = matches / #keywords`; a
condition is listed exactly when its confidence exceeds 0.4; the listed
conditions are ordered by strictly descending stored percentage with
ties in catalog order; and the concrete chest-pain example lists
"heart_attack" with confidence at least 80% and aggregate urgency
red. -/
theorem confidence_ranking (symptom : String) (answers : List String) :
    (∀ pat ∈ ASSESSMENT_PATTERNS,
      confOf (lowerS (joinSep " " answers)) pat =
        (matchCount (lowerS (joinSep " " answers)) pat : ℚ) /
          (pat.keywords.length : ℚ)) ∧
    (∀ pat ∈ ASSESSMENT_PATTERNS,
      (pat.name ∈
          ((assessPattern symptom answers).possibleConditions.map ScoreEntry.condition) ↔
        confOf (lowerS (joinSep " " answers)) pat > 0.4)) ∧
    (assessPattern symptom answers).possibleConditions.Pairwise
      (fun a b => b.pct < a.pct ∨ (a.pct = b.pct ∧
        (ASSESSMENT_PATTERNS.map Pattern.name).indexOf a.condition <
          (ASSESSMENT_PATTERNS.map Pattern.name).indexOf b.condition)) ∧
    ((∃ e ∈ (assessPattern "chest pain"
        ["crushing pressure in center, radiating to arm, sweating, shortness of breath"]).possibleConditions,
        e.condition = "heart_attack" ∧ (80:ℤ) ≤ e.pct) ∧
      (assessPattern "chest pain"
        ["crushing pressure in center, radiating to arm, sweating, shortness of breath"]).urgencyLevel =
        Urg.red) := by
  refine ⟨fun pat hp => ?_, ?_, ?_, ?_, ?_⟩
  · rw [confOf_catalog _ pat hp, keywords_len_catalog pat hp]
    norm_num
  · intro pat hp
    have hperm := sortDesc_perm ScoreEntry.pct
      (scoresList (lowerS (joinSep " " answers)))
    constructor
    · intro hmem
      simp only [List.mem_map] at hmem
      obtain ⟨e, he, hcond⟩ := hmem
      have he2 : e ∈ scoresList (lowerS (joinSep " " answers)) :=
        hperm.mem_iff.mp he
      unfold scoresList at he2
      simp only [List.mem_map] at he2
      obtain ⟨q, hq, hmk⟩ := he2
      have hqname : q.name = pat.name := by
        rw [← hmk] at hcond
        exact hcond
      have hqmem : q ∈ ASSESSMENT_PATTERNS := List.mem_of_mem_filter hq
      have hnodup : (ASSESSMENT_PATTERNS.map Pattern.name).Nodup := by decide
      have hqp : q = pat := List.inj_on_of_nodup_map hnodup hqmem hp hqname
      subst hqp
      exact of_decide_eq_true (List.mem_filter.mp hq).2
    · intro hconf
      have hqf : pat ∈ includedPatterns (lowerS (joinSep " " answers)) :=
        List.mem_filter.mpr ⟨hp, decide_eq_true hconf⟩
      have hmem : mkEntry (lowerS (joinSep " " answers)) pat ∈
          scoresList (lowerS (joinSep " " answers)) :=
        List.mem_map_of_mem _ hqf
      exact List.mem_map.mpr
        ⟨mkEntry (lowerS (joinSep " " answers)) pat, hperm.mem_iff.mpr hmem, rfl⟩
  · have hnames : ASSESSMENT_PATTERNS.Pairwise (fun p q =>
        (ASSESSMENT_PATTERNS.map Pattern.name).indexOf p.name <
          (ASSESSMENT_PATTERNS.map Pattern.name).indexOf q.name) := by decide
    have hfil : (includedPatterns (lowerS (joinSep " " answers))).Pairwise
        (fun p q => (ASSESSMENT_PATTERNS.map Pattern.name).indexOf p.name <
          (ASSESSMENT_PATTERNS.map Pattern.name).indexOf q.name) :=
      List.Pairwise.sublist (List.filter_sublist ASSESSMENT_PATTERNS) hnames
    have hsc : (scoresList (lowerS (joinSep " " answers))).Pairwise
        (fun e1 e2 => (ASSESSMENT_PATTERNS.map Pattern.name).indexOf e1.condition <
          (ASSESSMENT_PATTERNS.map Pattern.name).indexOf e2.condition) :=
      List.pairwise_map.mpr hfil
    exact sortDesc_pairwise ScoreEntry.pct
      (fun e => (ASSESSMENT_PATTERNS.map Pattern.name).indexOf e.condition)
      _ hsc
  · show ∃ e ∈ sortDesc ScoreEntry.pct (scoresList (lowerS (joinSep " "
        ["crushing pressure in center, radiating to arm, sweating, shortness of breath"]))), _
    rw [scoresList_eq]
    decide
  · show finalUrgency (lowerS (joinSep " "
        ["crushing pressure in center, radiating to arm, sweating, shortness of breath"])) = Urg.red
    rw [finalUrgency_eq, condUrgency_eq, scoresList_eq]
    decide

/-- C6 witness: the inclusion criterion applied to the heart-attack
pattern (catalog index 2) on the concrete chest-pain answers. -/
theorem confidence_ranking_witness :
    (ASSESSMENT_PATTERNS.getD 2 ⟨"", [], Urg.green, "", "", [], ""⟩).name ∈
      ((assessPattern "chest pain"
        ["crushing pressure in center, radiating to arm, sweating, shortness of breath"]).possibleConditions.map
          ScoreEntry.condition) ↔
    confOf (lowerS (joinSep " "
        ["crushing pressure in center, radiating to arm, sweating, shortness of breath"]))
      (ASSESSMENT_PATTERNS.getD 2 ⟨"", [], Urg.green, "", "", [], ""⟩) > 0.4 :=
  (confidence_ranking "chest pain"
    ["crushing pressure in center, radiating to arm, sweating, shortness of breath"]).2.1
    (ASSESSMENT_PATTERNS.getD 2 ⟨"", [], Urg.green, "", "", [], ""⟩) (by decide)
